import Mathlib

/-!
# Verification of the gopenpgp composition layer

Shallow embedding of the repository's core components and proofs of the
specification claims about them:

* `Gopenpgp.Profile` — profile configuration (`profile/profile.go`).
* `Gopenpgp.Crypto` — the streaming encrypt/sign composition engine
  (`crypto/encryption_core.go`).
* `Gopenpgp.SignDetached` — detached-signature verification
  (`crypto/sign_detached.go`).
* `Gopenpgp.Helper` — explicit-verify decryption and MIME mobile accessors
  (the helper package file).

External collaborators (the go-crypto packet engine, key parsing, the
armored-signature checker) are modelled as explicit oracle parameters: the
embedded functions receive the collaborator's outcome as an argument, so the
theorems quantify over every behaviour of the collaborator.
-/

namespace Gopenpgp.Profile

/-- Public-key algorithm identifiers of the packet engine
(`packet.PubKeyAlgoRSA`, `packet.PubKeyAlgoEdDSA`, `packet.PubKeyAlgoEd25519`,
`packet.PubKeyAlgoEd448`). -/
inductive PubKeyAlgo where
  | RSA
  | EdDSA
  | Ed25519
  | Ed448
deriving DecidableEq, Repr

/-- Elliptic-curve identifiers of the packet engine (`packet.Curve448`). -/
inductive Curve where
  | Curve448
deriving DecidableEq, Repr

/-- Embedding of `packet.Config` restricted to the fields that
`Custom.KeyGenerationConfig` reads or writes.  Cipher, hash, AEAD, S2K and
compression parameters are opaque to the claims, so they are represented by
`Nat` codes; `Algorithm` and `Curve` are `Option`-valued because the Go zero
value leaves them unset. -/
structure PacketConfig where
  DefaultHash : Nat
  DefaultCipher : Nat
  AEADConfig : Option Nat
  DefaultCompressionAlgo : Nat
  CompressionConfig : Option Nat
  V6Keys : Bool
  Algorithm : Option PubKeyAlgo
  RSABits : Nat
  Curve : Option Curve
deriving DecidableEq, Repr

/-- `packet.Config.V6()` of the packet engine: reports the `V6Keys` flag. -/
def PacketConfig.V6 (cfg : PacketConfig) : Bool :=
  cfg.V6Keys

/-- `profile.KeyAlgorithm` is `int8` in the source; embedded as `Int`. -/
def RSA : Int := 0

/-- The `Elliptic` key-algorithm constant (`profile.Elliptic = 1`). -/
def Elliptic : Int := 1

/-- `constants.SecurityLevel` value for standard security. -/
def StandardSecurity : Int := 0

/-- `constants.SecurityLevel` value for high security. -/
def HighSecurity : Int := 1

/-- Embedding of `profile.Custom` (profile/profile.go).  Opaque algorithm
parameters are `Nat` codes; optional configuration pointers are `Option`. -/
structure Custom where
  Name : String
  KeyAlgorithm : Int
  Hash : Nat
  CipherKeyEncryption : Nat
  AeadKeyEncryption : Option Nat
  S2kKeyEncryption : Option Nat
  CipherEncryption : Nat
  AeadEncryption : Option Nat
  S2kEncryption : Option Nat
  CompressionAlgorithm : Nat
  CompressionConfiguration : Option Nat
  HashSign : Nat
  V6 : Bool
deriving DecidableEq, Repr

/-- Embedding of `Custom.KeyGenerationConfig` (profile/profile.go lines
53–87): builds a `PacketConfig` from the profile fields and selects the key
algorithm from the profile's `KeyAlgorithm` and the security level.  The Go
`switch` has no default case, so an unknown `KeyAlgorithm` leaves the
algorithm fields at their zero values. -/
def Custom.KeyGenerationConfig (p : Custom) (level : Int) : PacketConfig :=
  let cfg : PacketConfig := {
    DefaultHash := p.Hash
    DefaultCipher := p.CipherEncryption
    AEADConfig := p.AeadEncryption
    DefaultCompressionAlgo := p.CompressionAlgorithm
    CompressionConfig := p.CompressionConfiguration
    V6Keys := p.V6
    Algorithm := none
    RSABits := 0
    Curve := none }
  if p.KeyAlgorithm = RSA then
    if level = HighSecurity then
      { cfg with Algorithm := some PubKeyAlgo.RSA, RSABits := 4096 }
    else
      { cfg with Algorithm := some PubKeyAlgo.RSA, RSABits := 3072 }
  else if p.KeyAlgorithm = Elliptic then
    if level = HighSecurity then
      if cfg.V6 then
        { cfg with Algorithm := some PubKeyAlgo.Ed448 }
      else
        { cfg with Algorithm := some PubKeyAlgo.EdDSA, Curve := some Curve.Curve448 }
    else
      if cfg.V6 then
        { cfg with Algorithm := some PubKeyAlgo.Ed25519 }
      else
        { cfg with Algorithm := some PubKeyAlgo.EdDSA }
  else
    cfg

/-- A concrete sample profile used to instantiate witnesses. -/
def sampleCustom : Custom where
  Name := "sample"
  KeyAlgorithm := Elliptic
  Hash := 8
  CipherKeyEncryption := 9
  AeadKeyEncryption := none
  S2kKeyEncryption := none
  CipherEncryption := 9
  AeadEncryption := none
  S2kEncryption := none
  CompressionAlgorithm := 1
  CompressionConfiguration := none
  HashSign := 8
  V6 := false

/-- Embedding of `profile.WithName` (profile/profile.go lines 42–48).  The
package-level registry map `nameToProfile` is repository data outside the
provided sources, so it is passed explicitly as a lookup function, mirroring
the Go map access with its ok-flag. -/
def WithName (nameToProfile : String → Option (Unit → Custom)) (name : String) :
    Option Custom :=
  match nameToProfile name with
  | none => none
  | some profileFunction => some (profileFunction ())

end Gopenpgp.Profile

namespace Gopenpgp.Crypto

/-- Opaque handle for a stream writer produced by the packet engine. -/
structure Writer where
  id : Nat
deriving DecidableEq, Repr

/-- Opaque embedding of `crypto.KeyRing`: an ordered key collection whose
internals the composition engine never inspects directly. -/
structure KeyRing where
  id : Nat
deriving DecidableEq, Repr

/-- Embedding of `crypto.SessionKey`: a symmetric-key byte buffer with a
version flag.  Bytes are `Nat` codes. -/
structure SessionKey where
  Key : List Nat
  v6 : Bool
deriving DecidableEq, Repr

/-- Modelled from the spec: `SessionKey.Clear` lives in the crypto package
outside the provided sources; §4.2 of the specification states it zeroes the
key buffer, so clearing replaces every byte of the buffer by zero. -/
def SessionKey.Clear (sk : SessionKey) : SessionKey :=
  { sk with Key := List.replicate sk.Key.length 0 }

/-- Opaque embedding of `crypto.SigningContext`. -/
structure SigningContext where
  id : Nat
deriving DecidableEq, Repr

/-- Embedding of the `crypto.encryptionHandle` configuration snapshot, with
the fields the detached-composition paths read or write.  Nil Go pointers
become `none`; the clock is the handle's time source collapsed to a Unix
timestamp.  The Go field names `SessionKey` and `SigningContext` collide with
their type names in Lean and are written in lower camel case. -/
structure EncryptionHandle where
  Recipients : Option KeyRing
  HiddenRecipients : Option KeyRing
  SignKeyRing : Option KeyRing
  Password : Option (List Nat)
  sessionKey : Option SessionKey
  Compression : Bool
  IsUTF8 : Bool
  signingContext : Option SigningContext
  clock : Int
deriving DecidableEq, Repr

/-- Go errors of the composition engine, identified by their message. -/
inductive GoErr where
  | msg (s : String)
deriving DecidableEq, Repr

/-- The configuration error produced at encryption_core.go line 358. -/
def noKeyMaterialErr : GoErr :=
  GoErr.msg "openpgp: no key material to encrypt"

/-! ## The detached-composition writer and its close order (C1)

`encryptSignDetachedWriter` (encryption_core.go lines 250–269) holds three
stage writers:

* `ptToCiphertextWriter` — the ciphertext pipeline (plaintext to encrypted
  data);
* `ptToEncSigWriter` — the signature pipeline's signing stage (plaintext to
  the detached signature);
* `sigToCiphertextWriter` — the signature pipeline's data-encryption stage
  (signature bytes to encrypted signature).

The observable behaviour of `Write` and `Close` is embedded as an event
trace over the three stages. -/

/-- The three downstream stages of the detached-composition writer. -/
inductive Stage where
  /-- `ptToCiphertextWriter`: the ciphertext pipeline. -/
  | ciphertext
  /-- `ptToEncSigWriter`: the signature-pipeline signing stage. -/
  | signing
  /-- `sigToCiphertextWriter`: the signature-pipeline data-encryption stage. -/
  | sigEncryption
deriving DecidableEq, Repr

/-- Observable events of the composed writer: a chunk forwarded to a stage,
or a stage being closed. -/
inductive Ev where
  | write (s : Stage) (chunk : List Nat)
  | close (s : Stage)
deriving DecidableEq, Repr

/-- Outcome of closing each underlying stage writer (the packet engine may
fail any individual `Close`); `none` means the stage closes cleanly. -/
structure StageCloseResults where
  ctErr : Option GoErr
  signErr : Option GoErr
  sigEncErr : Option GoErr
deriving DecidableEq, Repr

/-- Embedding of `encryptSignDetachedWriter.Write` (encryption_core.go lines
257–259): `ptWriter` is `io.MultiWriter(ptToCiphertextWriter,
ptToEncSigWriter)` (line 311), so one chunk is forwarded to the ciphertext
pipeline and to the signing stage. -/
def encryptSignDetachedWrite (chunk : List Nat) : List Ev :=
  [Ev.write Stage.ciphertext chunk, Ev.write Stage.signing chunk]

/-- Embedding of `encryptSignDetachedWriter.Close` (encryption_core.go lines
261–269): close `ptToCiphertextWriter`, return on error; close
`ptToEncSigWriter`, return on error; close `sigToCiphertextWriter` and
return its result.  Yields the ordered list of close events that actually
happened together with the returned error. -/
def encryptSignDetachedClose (r : StageCloseResults) : List Ev × Option GoErr :=
  match r.ctErr with
  | some e => ([Ev.close Stage.ciphertext], some e)
  | none =>
    match r.signErr with
    | some e => ([Ev.close Stage.ciphertext, Ev.close Stage.signing], some e)
    | none =>
      ([Ev.close Stage.ciphertext, Ev.close Stage.signing,
        Ev.close Stage.sigEncryption], r.sigEncErr)

/-- Full observable trace of a use of the composed writer: the caller writes
a sequence of chunks and then calls `Close` once. -/
def encryptSignDetachedRun (chunks : List (List Nat)) (r : StageCloseResults) :
    List Ev :=
  chunks.flatMap encryptSignDetachedWrite ++ (encryptSignDetachedClose r).1

/-! ## The detached-signature composition function (C6) -/

/-- The value returned by the composition: the three stage writers of
`encryptSignDetachedWriter` (`ptWriter` is determined by the first and third
as their multi-writer). -/
structure encryptSignDetachedWriter where
  ptToCiphertextWriter : Writer
  sigToCiphertextWriter : Writer
  ptToEncSigWriter : Writer
deriving DecidableEq, Repr

/-- Embedding of `encryptSignDetachedStreamWithSessionKey`
(encryption_core.go lines 273–313).  The two pipeline builders it calls —
`encryptStreamWithSessionKey`, which reads the handle and delegates to the
packet engine, and `signMessageDetachedWriter` — are oracle parameters.  The
function saves the handle's `SignKeyRing`, nulls it, builds the ciphertext
pipeline, the signature-encryption pipeline and the signing writer (which
receives the saved keyring), and a deferred assignment restores the saved
`SignKeyRing` on every exit.

Returns the composition result, the handle state after the deferred restore,
and the list of handle states passed to `encryptStreamWithSessionKey`, in
call order. -/
def encryptSignDetachedStreamWithSessionKey
    (encryptStreamWithSessionKey : EncryptionHandle → Writer → Except GoErr Writer)
    (signMessageDetachedWriter :
      Option KeyRing → Writer → Bool → Option SigningContext → Except GoErr Writer)
    (encryptedSignatureWriter encryptedDataWriter : Writer)
    (eh : EncryptionHandle) :
    Except GoErr encryptSignDetachedWriter × EncryptionHandle × List EncryptionHandle :=
  let signKeyRing := eh.SignKeyRing
  let eh1 := { eh with SignKeyRing := none }
  let restored := { eh1 with SignKeyRing := signKeyRing }
  match encryptStreamWithSessionKey eh1 encryptedDataWriter with
  | Except.error e => (Except.error e, restored, [eh1])
  | Except.ok ptToCiphertextWriter =>
    match encryptStreamWithSessionKey eh1 encryptedSignatureWriter with
    | Except.error e => (Except.error e, restored, [eh1, eh1])
    | Except.ok sigToCiphertextWriter =>
      match signMessageDetachedWriter signKeyRing sigToCiphertextWriter
          eh1.IsUTF8 eh1.signingContext with
      | Except.error e => (Except.error e, restored, [eh1, eh1])
      | Except.ok ptToEncSigWriter =>
        (Except.ok
          { ptToCiphertextWriter := ptToCiphertextWriter
            sigToCiphertextWriter := sigToCiphertextWriter
            ptToEncSigWriter := ptToEncSigWriter },
         restored, [eh1, eh1])

/-! ## Recipient encryption with detached signature (C5, C7) -/

/-- The part of `encryptSignDetachedStreamToRecipients` (encryption_core.go
lines 340–373) that runs once the handle carries a session key `sk`: encrypt
the session key to the recipients or hidden recipients if any are set,
otherwise with the password if one is set, otherwise fail with the
no-key-material error; on success run the detached composition.  The
session-key encryption primitives of the packet engine are oracles. -/
def encryptSignDetachedToRecipientsBody
    (encryptSessionKeyToWriter :
      Option KeyRing → Option KeyRing → SessionKey → Except GoErr Unit)
    (encryptSessionKeyWithPasswordToWriter :
      List Nat → SessionKey → Except GoErr Unit)
    (encryptStreamWithSessionKey : EncryptionHandle → Writer → Except GoErr Writer)
    (signMessageDetachedWriter :
      Option KeyRing → Writer → Bool → Option SigningContext → Except GoErr Writer)
    (encryptedSignatureWriter encryptedDataWriter : Writer)
    (sk : SessionKey) (eh : EncryptionHandle) :
    Except GoErr encryptSignDetachedWriter :=
  let keyEncResult : Except GoErr Unit :=
    if eh.Recipients.isSome || eh.HiddenRecipients.isSome then
      encryptSessionKeyToWriter eh.Recipients eh.HiddenRecipients sk
    else
      match eh.Password with
      | some pw => encryptSessionKeyWithPasswordToWriter pw sk
      | none => Except.error noKeyMaterialErr
  match keyEncResult with
  | Except.error e => Except.error e
  | Except.ok _ =>
    (encryptSignDetachedStreamWithSessionKey encryptStreamWithSessionKey
      signMessageDetachedWriter encryptedSignatureWriter encryptedDataWriter
      eh).1

/-- Embedding of `encryptSignDetachedStreamToRecipients`
(encryption_core.go lines 315–374).  `generateSessionKey` is the external
key generator (an oracle).  When the handle carries no pre-set session key,
a key is generated, stored in the handle, and a deferred block clears the
key buffer and resets the handle field to nil on every exit of the remaining
body — error or success.

Returns the result, the final handle state, and the final contents of the
generated ephemeral key (`none` when no key was generated, so the fate of a
caller-supplied key is untouched). -/
def encryptSignDetachedStreamToRecipients
    (generateSessionKey : Except GoErr SessionKey)
    (encryptSessionKeyToWriter :
      Option KeyRing → Option KeyRing → SessionKey → Except GoErr Unit)
    (encryptSessionKeyWithPasswordToWriter :
      List Nat → SessionKey → Except GoErr Unit)
    (encryptStreamWithSessionKey : EncryptionHandle → Writer → Except GoErr Writer)
    (signMessageDetachedWriter :
      Option KeyRing → Writer → Bool → Option SigningContext → Except GoErr Writer)
    (encryptedSignatureWriter encryptedDataWriter : Writer)
    (eh : EncryptionHandle) :
    Except GoErr encryptSignDetachedWriter × EncryptionHandle × Option SessionKey :=
  match eh.sessionKey with
  | some sk =>
    (encryptSignDetachedToRecipientsBody encryptSessionKeyToWriter
      encryptSessionKeyWithPasswordToWriter encryptStreamWithSessionKey
      signMessageDetachedWriter encryptedSignatureWriter encryptedDataWriter
      sk eh,
     eh, none)
  | none =>
    match generateSessionKey with
    | Except.error e => (Except.error e, eh, none)
    | Except.ok sk =>
      let eh1 := { eh with sessionKey := some sk }
      (encryptSignDetachedToRecipientsBody encryptSessionKeyToWriter
        encryptSessionKeyWithPasswordToWriter encryptStreamWithSessionKey
        signMessageDetachedWriter encryptedSignatureWriter encryptedDataWriter
        sk eh1,
       { eh1 with sessionKey := none }, some sk.Clear)

end Gopenpgp.Crypto

namespace Gopenpgp.SignDetached

/-- Opaque embedding of a signer entity identified by the armored-signature
checker. -/
structure Signer where
  id : Nat
deriving DecidableEq, Repr

/-- Error outcomes of detached verification.  `signatureExpired` embeds the
engine sentinel `errors.ErrSignatureExpired`, compared by identity in the
source; `engine` is any other checker error; `signerEmpty` is the error built
at sign_detached.go line 107. -/
inductive VerifyError where
  | signatureExpired
  | engine (msg : String)
  | signerEmpty
deriving DecidableEq, Repr

/-- Modelled from the spec: `internal.CreationTimeOffset` lives in the
internal package outside the provided sources; the specification describes
it only as a fixed nonzero creation-time offset added on the first
verification attempt, and notes its value must come from the engine.  The
claims depend only on the constant being fixed, so a representative value of
one week in seconds is used. -/
def CreationTimeOffset : Int := 604800

/-- Embedding of `verifySignature` (sign_detached.go lines 73–114).  The
external checker `openpgp.CheckArmoredDetachedSignature` is an oracle mapping
the configured verification time to the pair (identified signer, error); the
key entities, plaintext and signature are fixed for the duration of one call,
so the oracle depends only on the time.  The result is the returned pair
(ok flag, error). -/
def verifySignature (check : Int → Option Signer × Option VerifyError)
    (verifyTime : Int) : Bool × Option VerifyError :=
  let t0 : Int := if verifyTime = 0 then 0 else verifyTime + CreationTimeOffset
  let first := check t0
  let second :=
    if first.2 = some VerifyError.signatureExpired ∧ first.1 ≠ none then
      if verifyTime > 0 then
        check verifyTime
      else
        (first.1, none)
    else
      first
  match second.2 with
  | some e => (false, some e)
  | none =>
    match second.1 with
    | none => (false, some VerifyError.signerEmpty)
    | some _ => (true, none)

/-- Call-trace instrumentation of `verifySignature`: the ordered list of
verification times at which the external checker is invoked, following
exactly the branch structure of sign_detached.go lines 73–102. -/
def verifySignatureCalls (check : Int → Option Signer × Option VerifyError)
    (verifyTime : Int) : List Int :=
  let t0 : Int := if verifyTime = 0 then 0 else verifyTime + CreationTimeOffset
  let first := check t0
  if first.2 = some VerifyError.signatureExpired ∧ first.1 ≠ none ∧ verifyTime > 0 then
    [t0, verifyTime]
  else
    [t0]

/-- The tail of `verifySignature` (sign_detached.go lines 103–113) applied to
a checker outcome: an error is a failure, a missing signer is the
signer-empty failure, otherwise success. -/
def finalizeVerify (outcome : Option Signer × Option VerifyError) :
    Bool × Option VerifyError :=
  match outcome.2 with
  | some e => (false, some e)
  | none =>
    match outcome.1 with
    | none => (false, some VerifyError.signerEmpty)
    | some _ => (true, none)

end Gopenpgp.SignDetached

namespace Gopenpgp.Helper

/-- Embedding of `crypto.PlainMessage`: decrypted plaintext bytes. -/
structure PlainMessage where
  Data : List Nat
deriving DecidableEq, Repr

/-- Embedding of `crypto.SignatureVerificationError`: the structured
signature-verification failure carried as data, with a status code and a
message. -/
structure SignatureVerificationError where
  Status : Int
  Message : String
deriving DecidableEq, Repr

/-- Go error values reaching the explicit-verify helpers: either a
`crypto.SignatureVerificationError` (a distinguishable error kind), a base
error of any other kind, or a wrapping of an inner error with a message
(`errors.Wrap`). -/
inductive GoError where
  | sigVerError (e : SignatureVerificationError)
  | base (msg : String)
  | wrap (msg : String) (inner : GoError)
deriving DecidableEq, Repr

/-- Embedding of `errors.As(err, &SignatureVerificationError{})`: walks the
unwrap chain and yields the first `SignatureVerificationError` found,
matching on the error kind and never on message text. -/
def errorsAs : GoError → Option SignatureVerificationError
  | GoError.sigVerError e => some e
  | GoError.base _ => none
  | GoError.wrap _ inner => errorsAs inner

/-- Embedding of `errors.Wrap` from pkg/errors. -/
def errorsWrap (e : GoError) (msg : String) : GoError :=
  GoError.wrap msg e

/-- Embedding of `extractExplicitSignatureVerificationError` (helper file
lines 56–66): no error yields no verification error; an error of the
signature-verification kind is captured as data; any other error is wrapped
and propagated as a hard failure. -/
def extractExplicitSignatureVerificationError :
    Option GoError → Except GoError (Option SignatureVerificationError)
  | none => Except.ok none
  | some err =>
    match errorsAs err with
    | some casted => Except.ok (some casted)
    | none => Except.error (errorsWrap err "gopenpgp: unable to decrypt message")

/-- Embedding of `helper.ExplicitVerifyMessage`.  The Go field
`SignatureVerificationError` collides with its type name in Lean and is
written in lower camel case. -/
structure ExplicitVerifyMessage where
  Message : Option PlainMessage
  signatureVerificationError : Option SignatureVerificationError
deriving DecidableEq, Repr

/-- Embedding of `helper.DecryptExplicitVerify` (helper file lines 20–34).
The underlying `privateKeyRing.Decrypt` is external; its outcome — the
decrypted message (possibly nil) and the error (possibly nil) — is the
argument.  A hard failure returns no message at all (the `Except.error`
constructor carries only the error). -/
def DecryptExplicitVerify (decrypt : Option PlainMessage × Option GoError) :
    Except GoError ExplicitVerifyMessage :=
  match extractExplicitSignatureVerificationError decrypt.2 with
  | Except.error e => Except.error e
  | Except.ok sv =>
    Except.ok { Message := decrypt.1, signatureVerificationError := sv }

/-- Embedding of `helper.DecryptSessionKeyExplicitVerify` (helper file lines
39–54), identical to `DecryptExplicitVerify` over the outcome of the
external `sessionKey.DecryptAndVerify`. -/
def DecryptSessionKeyExplicitVerify
    (decryptAndVerify : Option PlainMessage × Option GoError) :
    Except GoError ExplicitVerifyMessage :=
  match extractExplicitSignatureVerificationError decryptAndVerify.2 with
  | Except.error e => Except.error e
  | Except.ok sv =>
    Except.ok { Message := decryptAndVerify.1, signatureVerificationError := sv }

/-! ## MIME mobile accessors (C10) -/

/-- Opaque embedding of `crypto.Attachment`. -/
structure Attachment where
  id : Nat
deriving DecidableEq, Repr

/-- Embedding of `crypto.MIMEMessage`: a header map (a Go map returns the
zero value, the empty string, for a missing key, so it is a total function)
and an attachment list. -/
structure MIMEMessage where
  Headers : String → String
  Attachments : List Attachment

/-- Embedding of `helper.MIMEMessageMobile`: the wrapped message together
with the snapshot of its header keys taken at construction. -/
structure MIMEMessageMobile where
  message : MIMEMessage
  headerKeys : List String

/-- Embedding of `helper.MobileHeader`. -/
structure MobileHeader where
  Key : String
  Value : String
deriving DecidableEq, Repr

/-- Embedding of `MIMEMessageMobile.GetHeader` (helper file lines 180–186):
a Go `int` index is an `Int`; an index below zero or at least the number of
header keys is rejected with an error, otherwise the key at the index is
looked up in the header map. -/
def MIMEMessageMobile.GetHeader (msg : MIMEMessageMobile) (index : Int) :
    Except String MobileHeader :=
  if index < 0 ∨ (msg.headerKeys.length : Int) ≤ index then
    Except.error "gopenpgp: invalid MIME header index"
  else
    let key := msg.headerKeys.getD index.toNat ""
    Except.ok { Key := key, Value := msg.message.Headers key }

/-- Embedding of `MIMEMessageMobile.GetAttachments` (helper file lines
192–197): bounds-checked indexed access into the attachment list. -/
def MIMEMessageMobile.GetAttachments (msg : MIMEMessageMobile) (index : Int) :
    Except String Attachment :=
  if index < 0 ∨ (msg.message.Attachments.length : Int) ≤ index then
    Except.error "gopenpgp: invalid MIME attachment index"
  else
    Except.ok (msg.message.Attachments.getD index.toNat { id := 0 })

/-- A concrete sample wrapped MIME message with one header and one
attachment, used to instantiate witnesses. -/
def sampleMIME : MIMEMessageMobile where
  message :=
    { Headers := fun k => if k = "Subject" then "hello" else "",
      Attachments := [{ id := 11 }] }
  headerKeys := ["Subject"]

end Gopenpgp.Helper

/-! # Theorems -/

namespace Gopenpgp.Profile

/-- C8: `KeyGenerationConfig` is a pure function of the profile and the
security level with this selection: an RSA profile yields modulus size 3072
at standard and 4096 at high security; an elliptic profile on the v6 key
format yields Ed448 at high and Ed25519 at standard security; on the legacy
v4 format it yields the generic EdDSA algorithm identifier, with the
Curve448 curve parameter set only in the high-security case. -/
theorem keyGenerationConfig_selection (p : Custom) :
    (Custom.KeyGenerationConfig { p with KeyAlgorithm := RSA } HighSecurity).RSABits = 4096 ∧
    (Custom.KeyGenerationConfig { p with KeyAlgorithm := RSA } HighSecurity).Algorithm
      = some PubKeyAlgo.RSA ∧
    (Custom.KeyGenerationConfig { p with KeyAlgorithm := RSA } StandardSecurity).RSABits = 3072 ∧
    (Custom.KeyGenerationConfig { p with KeyAlgorithm := RSA } StandardSecurity).Algorithm
      = some PubKeyAlgo.RSA ∧
    (Custom.KeyGenerationConfig { p with KeyAlgorithm := Elliptic, V6 := true }
      HighSecurity).Algorithm = some PubKeyAlgo.Ed448 ∧
    (Custom.KeyGenerationConfig { p with KeyAlgorithm := Elliptic, V6 := true }
      StandardSecurity).Algorithm = some PubKeyAlgo.Ed25519 ∧
    (Custom.KeyGenerationConfig { p with KeyAlgorithm := Elliptic, V6 := false }
      HighSecurity).Algorithm = some PubKeyAlgo.EdDSA ∧
    (Custom.KeyGenerationConfig { p with KeyAlgorithm := Elliptic, V6 := false }
      HighSecurity).Curve = some Curve.Curve448 ∧
    (Custom.KeyGenerationConfig { p with KeyAlgorithm := Elliptic, V6 := false }
      StandardSecurity).Algorithm = some PubKeyAlgo.EdDSA ∧
    (Custom.KeyGenerationConfig { p with KeyAlgorithm := Elliptic, V6 := false }
      StandardSecurity).Curve = none := by
  refine ⟨?_, ?_, ?_, ?_, ?_, ?_, ?_, ?_, ?_, ?_⟩ <;>
    simp [Custom.KeyGenerationConfig, PacketConfig.V6, RSA, Elliptic,
      HighSecurity, StandardSecurity]

/-- C9: for a name not present in the registry, `WithName` returns `none`
(Go nil), not an error and not a panic (the embedding is a total function);
for a registered name it returns the profile produced by the registered
constructor function. -/
theorem withName_lookup (nameToProfile : String → Option (Unit → Custom))
    (name : String) :
    (nameToProfile name = none → WithName nameToProfile name = none) ∧
    (∀ profileFunction : Unit → Custom,
      nameToProfile name = some profileFunction →
        WithName nameToProfile name = some (profileFunction ())) := by
  constructor
  · intro h
    simp [WithName, h]
  · intro profileFunction h
    simp [WithName, h]

/-- Witness for C9: a concrete registry holding only the name `sample`;
looking up `missing` yields `none` and looking up `sample` yields the
constructed profile. -/
theorem withName_lookup_witness :
    WithName (fun n => if n = "sample" then some (fun _ => sampleCustom) else none)
      "missing" = none ∧
    WithName (fun n => if n = "sample" then some (fun _ => sampleCustom) else none)
      "sample" = some sampleCustom := by
  constructor
  · exact (withName_lookup
      (fun n => if n = "sample" then some (fun _ => sampleCustom) else none)
      "missing").1 (by simp)
  · exact (withName_lookup
      (fun n => if n = "sample" then some (fun _ => sampleCustom) else none)
      "sample").2 (fun _ => sampleCustom) (by simp)

end Gopenpgp.Profile

namespace Gopenpgp.Crypto

/-- Counterexample for C1: the claim states that on `Close` the
signature-pipeline's signing stage is closed last, after the
signature-pipeline's data-encryption stage.  On the all-successful close,
the code closes the signing stage (`ptToEncSigWriter`) second and the
data-encryption stage (`sigToCiphertextWriter`) last, so the claimed order
ciphertext, data-encryption stage, signing stage does not occur. -/
theorem close_order_signing_not_last :
    (encryptSignDetachedClose { ctErr := none, signErr := none, sigEncErr := none }).1
      = [Ev.close Stage.ciphertext, Ev.close Stage.signing, Ev.close Stage.sigEncryption] ∧
    (encryptSignDetachedClose { ctErr := none, signErr := none, sigEncErr := none }).1
      ≠ [Ev.close Stage.ciphertext, Ev.close Stage.sigEncryption, Ev.close Stage.signing] := by
  decide

/-- C1 (amended): a single call to `Close` finalizes the stages in the fixed
order: the ciphertext pipeline first, then the signature-pipeline's signing
stage — after all plaintext chunks have been forwarded to it, since every
write event of the run precedes the close events — and the
signature-pipeline's data-encryption stage last.  On an error the close
sequence stops early but never departs from that order. -/
theorem close_order_ciphertext_signing_sigEncryption
    (chunks : List (List Nat)) (r : StageCloseResults) :
    encryptSignDetachedRun chunks { ctErr := none, signErr := none, sigEncErr := none }
      = chunks.flatMap encryptSignDetachedWrite ++
        [Ev.close Stage.ciphertext, Ev.close Stage.signing, Ev.close Stage.sigEncryption] ∧
    ((encryptSignDetachedClose r).1 = [Ev.close Stage.ciphertext] ∨
     (encryptSignDetachedClose r).1
       = [Ev.close Stage.ciphertext, Ev.close Stage.signing] ∨
     (encryptSignDetachedClose r).1
       = [Ev.close Stage.ciphertext, Ev.close Stage.signing,
          Ev.close Stage.sigEncryption]) := by
  constructor
  · rfl
  · rcases r with ⟨ct, sg, se⟩
    cases ct <;> cases sg <;> simp [encryptSignDetachedClose]

/-- C6: `encryptSignDetachedStreamWithSessionKey` nulls the handle's
configured inline signer while the pure-encryption pipelines are built —
every handle state passed to a pipeline builder has no `SignKeyRing` — and
the deferred restore returns the handle to exactly its prior value on every
exit, success or failure, changing no other field (the final state equals
the initial one). -/
theorem sign_keyring_scoped_restore
    (encryptStreamWithSessionKeyF : EncryptionHandle → Writer → Except GoErr Writer)
    (signMessageDetachedWriterF :
      Option KeyRing → Writer → Bool → Option SigningContext → Except GoErr Writer)
    (encryptedSignatureWriter encryptedDataWriter : Writer)
    (eh : EncryptionHandle) :
    (encryptSignDetachedStreamWithSessionKey encryptStreamWithSessionKeyF
      signMessageDetachedWriterF encryptedSignatureWriter encryptedDataWriter
      eh).2.1 = eh ∧
    ((encryptSignDetachedStreamWithSessionKey encryptStreamWithSessionKeyF
      signMessageDetachedWriterF encryptedSignatureWriter encryptedDataWriter
      eh).2.2.all (fun h => h.SignKeyRing.isNone)) = true := by
  obtain ⟨r, hr, skr, pw, s, c, u, sc, cl⟩ := eh
  unfold encryptSignDetachedStreamWithSessionKey
  dsimp only
  split
  · exact ⟨rfl, rfl⟩
  · split
    · exact ⟨rfl, rfl⟩
    · split
      · exact ⟨rfl, rfl⟩
      · exact ⟨rfl, rfl⟩

end Gopenpgp.Crypto

namespace Gopenpgp.Crypto

/-- C5: when `encryptSignDetachedStreamToRecipients` is called with no
pre-set session key and the external generator yields a key, then on every
exit path of the remaining call — whatever the outcomes of the session-key
encryption, the pipeline builders, or the final composition — the deferred
block leaves the ephemeral key's buffer zeroed and the handle's session-key
field reset to nil. -/
theorem ephemeral_session_key_cleared
    (generateSessionKeyF : Except GoErr SessionKey)
    (encryptSessionKeyToWriterF :
      Option KeyRing → Option KeyRing → SessionKey → Except GoErr Unit)
    (encryptSessionKeyWithPasswordToWriterF :
      List Nat → SessionKey → Except GoErr Unit)
    (encryptStreamWithSessionKeyF : EncryptionHandle → Writer → Except GoErr Writer)
    (signMessageDetachedWriterF :
      Option KeyRing → Writer → Bool → Option SigningContext → Except GoErr Writer)
    (encryptedSignatureWriter encryptedDataWriter : Writer)
    (eh : EncryptionHandle) (sk : SessionKey)
    (hnokey : eh.sessionKey = none)
    (hgen : generateSessionKeyF = Except.ok sk) :
    (encryptSignDetachedStreamToRecipients generateSessionKeyF
      encryptSessionKeyToWriterF encryptSessionKeyWithPasswordToWriterF
      encryptStreamWithSessionKeyF signMessageDetachedWriterF
      encryptedSignatureWriter encryptedDataWriter eh).2.2 = some sk.Clear ∧
    sk.Clear.Key = List.replicate sk.Key.length 0 ∧
    (encryptSignDetachedStreamToRecipients generateSessionKeyF
      encryptSessionKeyToWriterF encryptSessionKeyWithPasswordToWriterF
      encryptStreamWithSessionKeyF signMessageDetachedWriterF
      encryptedSignatureWriter encryptedDataWriter eh).2.1.sessionKey = none := by
  subst hgen
  unfold encryptSignDetachedStreamToRecipients
  simp [hnokey, SessionKey.Clear]

/-- Witness for C5: a concrete call with a two-byte generated key; the
returned key fate is the zeroed buffer and the final handle has no session
key. -/
theorem ephemeral_session_key_cleared_witness :
    (encryptSignDetachedStreamToRecipients (Except.ok { Key := [7, 7], v6 := false })
      (fun _ _ _ => Except.ok ()) (fun _ _ => Except.ok ())
      (fun _ _ => Except.ok { id := 0 }) (fun _ _ _ _ => Except.ok { id := 1 })
      { id := 2 } { id := 3 }
      { Recipients := some { id := 4 }, HiddenRecipients := none,
        SignKeyRing := none, Password := none, sessionKey := none,
        Compression := false, IsUTF8 := false, signingContext := none,
        clock := 0 }).2.2
      = some (SessionKey.Clear { Key := [7, 7], v6 := false }) ∧
    (SessionKey.Clear { Key := [7, 7], v6 := false }).Key
      = List.replicate ([7, 7] : List Nat).length 0 ∧
    (encryptSignDetachedStreamToRecipients (Except.ok { Key := [7, 7], v6 := false })
      (fun _ _ _ => Except.ok ()) (fun _ _ => Except.ok ())
      (fun _ _ => Except.ok { id := 0 }) (fun _ _ _ _ => Except.ok { id := 1 })
      { id := 2 } { id := 3 }
      { Recipients := some { id := 4 }, HiddenRecipients := none,
        SignKeyRing := none, Password := none, sessionKey := none,
        Compression := false, IsUTF8 := false, signingContext := none,
        clock := 0 }).2.1.sessionKey = none :=
  ephemeral_session_key_cleared _ _ _ _ _ _ _ _ _ rfl rfl

/-- C7: on a handle with no recipients, no hidden recipients, no password
and no pre-supplied session key, full encryption fails with the
no-key-material configuration error and produces no writer (the error
constructor of the result carries no writer). -/
theorem no_key_material_error
    (generateSessionKeyF : Except GoErr SessionKey)
    (encryptSessionKeyToWriterF :
      Option KeyRing → Option KeyRing → SessionKey → Except GoErr Unit)
    (encryptSessionKeyWithPasswordToWriterF :
      List Nat → SessionKey → Except GoErr Unit)
    (encryptStreamWithSessionKeyF : EncryptionHandle → Writer → Except GoErr Writer)
    (signMessageDetachedWriterF :
      Option KeyRing → Writer → Bool → Option SigningContext → Except GoErr Writer)
    (encryptedSignatureWriter encryptedDataWriter : Writer)
    (eh : EncryptionHandle) (sk : SessionKey)
    (hrec : eh.Recipients = none) (hhid : eh.HiddenRecipients = none)
    (hpw : eh.Password = none) (hses : eh.sessionKey = none)
    (hgen : generateSessionKeyF = Except.ok sk) :
    (encryptSignDetachedStreamToRecipients generateSessionKeyF
      encryptSessionKeyToWriterF encryptSessionKeyWithPasswordToWriterF
      encryptStreamWithSessionKeyF signMessageDetachedWriterF
      encryptedSignatureWriter encryptedDataWriter eh).1
      = Except.error noKeyMaterialErr := by
  subst hgen
  obtain ⟨r, hr, skr, pw, s, c, u, sc, cl⟩ := eh
  simp only at hrec hhid hpw hses
  subst hrec hhid hpw hses
  unfold encryptSignDetachedStreamToRecipients encryptSignDetachedToRecipientsBody
  simp

/-- Witness for C7: a concrete unconfigured handle; the call returns the
no-key-material error. -/
theorem no_key_material_error_witness :
    (encryptSignDetachedStreamToRecipients (Except.ok { Key := [5], v6 := true })
      (fun _ _ _ => Except.ok ()) (fun _ _ => Except.ok ())
      (fun _ _ => Except.ok { id := 0 }) (fun _ _ _ _ => Except.ok { id := 1 })
      { id := 2 } { id := 3 }
      { Recipients := none, HiddenRecipients := none,
        SignKeyRing := none, Password := none, sessionKey := none,
        Compression := false, IsUTF8 := false, signingContext := none,
        clock := 0 }).1
      = Except.error noKeyMaterialErr :=
  no_key_material_error _ _ _ _ _ _ _ _ _ rfl rfl rfl rfl rfl

end Gopenpgp.Crypto

namespace Gopenpgp.SignDetached

/-- Counterexample for C3: the claim promises a retry for every *nonzero*
verification time, but the code retries only for a *positive* one.  At the
nonzero verification time -1, with a checker that reports an expired
signature and an identified signer at every time, the premises of the claim
hold, yet only one checker call is made — no retry at the literal time —
and the call even succeeds because the non-positive branch discards the
expiry error. -/
theorem retry_not_performed_at_negative_time :
    ((-1 : Int) ≠ 0) ∧
    (fun _ : Int =>
        ((some { id := 0 }, some VerifyError.signatureExpired) :
          Option Signer × Option VerifyError)) (-1 + CreationTimeOffset)
      = (some { id := 0 }, some VerifyError.signatureExpired) ∧
    verifySignatureCalls
      (fun _ => (some { id := 0 }, some VerifyError.signatureExpired)) (-1)
      = [-1 + CreationTimeOffset] ∧
    verifySignatureCalls
      (fun _ => (some { id := 0 }, some VerifyError.signatureExpired)) (-1)
      ≠ [-1 + CreationTimeOffset, -1] ∧
    verifySignature
      (fun _ => (some { id := 0 }, some VerifyError.signatureExpired)) (-1)
      = (true, none) := by
  refine ⟨by decide, rfl, ?_, ?_, ?_⟩ <;> decide

/-- C3 (amended): whenever the first check reports the signature as expired,
a candidate signer was identified, and the caller supplied a *positive*
verification time, exactly one retry is performed — the checker is called
exactly twice, the second time at the literal verification time with no
creation-time offset, while the first call was at the verification time plus
the fixed offset — and the retry's outcome is final: the result is the
finalization of the second checker outcome. -/
theorem expired_retry_once_literal_time
    (check : Int → Option Signer × Option VerifyError) (verifyTime : Int)
    (s : Signer) (hpos : 0 < verifyTime)
    (hfirst : check (verifyTime + CreationTimeOffset)
      = (some s, some VerifyError.signatureExpired)) :
    verifySignatureCalls check verifyTime
      = [verifyTime + CreationTimeOffset, verifyTime] ∧
    verifySignature check verifyTime = finalizeVerify (check verifyTime) := by
  have hvz : ¬ verifyTime = 0 := by omega
  constructor
  · unfold verifySignatureCalls
    simp [hvz, hfirst, hpos]
  · unfold verifySignature finalizeVerify
    simp [hvz, hfirst, hpos]

/-- Witness for C3: a checker that reports expiry with a signer at the
offset time 5 + `CreationTimeOffset` and verifies cleanly elsewhere; at
verification time 5 the engine is called at the offset time and then at the
literal time 5, and the retry outcome — success — is final. -/
theorem expired_retry_once_literal_time_witness :
    verifySignatureCalls
      (fun t => if t = 5 + CreationTimeOffset then
          (some { id := 3 }, some VerifyError.signatureExpired)
        else (some { id := 3 }, none)) 5
      = [5 + CreationTimeOffset, 5] ∧
    verifySignature
      (fun t => if t = 5 + CreationTimeOffset then
          (some { id := 3 }, some VerifyError.signatureExpired)
        else (some { id := 3 }, none)) 5
      = finalizeVerify ((fun t : Int => if t = 5 + CreationTimeOffset then
          ((some { id := 3 }, some VerifyError.signatureExpired) :
            Option Signer × Option VerifyError)
        else (some { id := 3 }, none)) 5) :=
  expired_retry_once_literal_time _ 5 { id := 3 } (by decide) (by decide)

/-- C4: at verification time 0 an expired verdict is never a failure: when
the single check at time zero reports exactly signature expiry and an
identified signer, `verifySignature` succeeds — it returns true with no
error — so expiry cannot cause failure when the verification time is zero
(no second check is even made). -/
theorem zero_time_expiry_success
    (check : Int → Option Signer × Option VerifyError) (s : Signer)
    (hzero : check 0 = (some s, some VerifyError.signatureExpired)) :
    verifySignature check 0 = (true, none) ∧
    verifySignatureCalls check 0 = [0] := by
  unfold verifySignature verifySignatureCalls
  simp [hzero]

/-- Witness for C4: a checker that always reports an expired signature with
an identified signer; at verification time 0 the verification succeeds after
a single check at time 0. -/
theorem zero_time_expiry_success_witness :
    verifySignature
      (fun _ => (some { id := 9 }, some VerifyError.signatureExpired)) 0
      = (true, none) ∧
    verifySignatureCalls
      (fun _ => (some { id := 9 }, some VerifyError.signatureExpired)) 0
      = [0] :=
  zero_time_expiry_success _ { id := 9 } rfl

end Gopenpgp.SignDetached

namespace Gopenpgp.Helper

/-- C2: for both explicit-verify entry points, an underlying error of the
signature-verification kind — matched by kind through the unwrap chain,
never by message text — yields success with the decrypted message passed
through and the error captured as structured data; an error of any other
kind is a hard failure carrying no plaintext; and no underlying error yields
the message with a nil verification error.  The last two conjuncts record
that the kind test ignores message text entirely. -/
theorem decryptExplicitVerify_error_handling
    (m : Option PlainMessage) (err : GoError) (e : SignatureVerificationError) :
    (errorsAs err = some e →
      DecryptExplicitVerify (m, some err)
        = Except.ok { Message := m, signatureVerificationError := some e } ∧
      DecryptSessionKeyExplicitVerify (m, some err)
        = Except.ok { Message := m, signatureVerificationError := some e }) ∧
    (errorsAs err = none →
      DecryptExplicitVerify (m, some err)
        = Except.error (errorsWrap err "gopenpgp: unable to decrypt message") ∧
      DecryptSessionKeyExplicitVerify (m, some err)
        = Except.error (errorsWrap err "gopenpgp: unable to decrypt message")) ∧
    (DecryptExplicitVerify (m, none)
        = Except.ok { Message := m, signatureVerificationError := none } ∧
      DecryptSessionKeyExplicitVerify (m, none)
        = Except.ok { Message := m, signatureVerificationError := none }) ∧
    (∀ text : String, errorsAs (GoError.base text) = none) ∧
    (∀ text : String,
      errorsAs (GoError.wrap text (GoError.sigVerError e)) = some e) := by
  refine ⟨?_, ?_, ?_, ?_, ?_⟩
  · intro h
    constructor <;>
      simp [DecryptExplicitVerify, DecryptSessionKeyExplicitVerify,
        extractExplicitSignatureVerificationError, h]
  · intro h
    constructor <;>
      simp [DecryptExplicitVerify, DecryptSessionKeyExplicitVerify,
        extractExplicitSignatureVerificationError, h]
  · constructor <;>
      simp [DecryptExplicitVerify, DecryptSessionKeyExplicitVerify,
        extractExplicitSignatureVerificationError]
  · intro text
    simp [errorsAs]
  · intro text
    simp [errorsAs]

/-- Witness for C2: a wrapped signature-verification error is captured as
data with the plaintext returned, and a plain engine error is a hard
failure. -/
theorem decryptExplicitVerify_error_handling_witness :
    DecryptExplicitVerify
      (some { Data := [1, 2] },
       some (GoError.wrap "w" (GoError.sigVerError { Status := 1, Message := "bad" })))
      = Except.ok
          { Message := some { Data := [1, 2] },
            signatureVerificationError := some { Status := 1, Message := "bad" } } ∧
    DecryptExplicitVerify (some { Data := [1, 2] }, some (GoError.base "corrupt"))
      = Except.error (errorsWrap (GoError.base "corrupt")
          "gopenpgp: unable to decrypt message") :=
  ⟨((decryptExplicitVerify_error_handling (some { Data := [1, 2] })
      (GoError.wrap "w" (GoError.sigVerError { Status := 1, Message := "bad" }))
      { Status := 1, Message := "bad" }).1 rfl).1,
   ((decryptExplicitVerify_error_handling (some { Data := [1, 2] })
      (GoError.base "corrupt") { Status := 1, Message := "bad" }).2.1 rfl).1⟩

/-- C10: the MIME mobile accessors are total — for any index outside the
range of the header keys or attachments they return an error (never a panic
or an out-of-bounds access), and for any in-range index they return the
element at that index. -/
theorem mime_index_bounds (msg : MIMEMessageMobile) (index : Int) :
    ((index < 0 ∨ (msg.headerKeys.length : Int) ≤ index) →
      msg.GetHeader index = Except.error "gopenpgp: invalid MIME header index") ∧
    (∀ k, 0 ≤ index → msg.headerKeys[index.toNat]? = some k →
      msg.GetHeader index
        = Except.ok { Key := k, Value := msg.message.Headers k }) ∧
    ((index < 0 ∨ (msg.message.Attachments.length : Int) ≤ index) →
      msg.GetAttachments index
        = Except.error "gopenpgp: invalid MIME attachment index") ∧
    (∀ a, 0 ≤ index → msg.message.Attachments[index.toNat]? = some a →
      msg.GetAttachments index = Except.ok a) := by
  refine ⟨?_, ?_, ?_, ?_⟩
  · intro h
    simp [MIMEMessageMobile.GetHeader, h]
  · intro k h1 h2
    have hlen : index.toNat < msg.headerKeys.length :=
      List.getElem?_eq_some.mp h2 |>.1
    have hidx : (index.toNat : Int) = index := Int.toNat_of_nonneg h1
    have hguard : ¬ (index < 0 ∨ (msg.headerKeys.length : Int) ≤ index) := by
      omega
    unfold MIMEMessageMobile.GetHeader
    rw [if_neg hguard]
    simp [List.getD_eq_getElem?_getD, h2]
  · intro h
    simp [MIMEMessageMobile.GetAttachments, h]
  · intro a h1 h2
    have hlen : index.toNat < msg.message.Attachments.length :=
      List.getElem?_eq_some.mp h2 |>.1
    have hidx : (index.toNat : Int) = index := Int.toNat_of_nonneg h1
    have hguard : ¬ (index < 0 ∨ (msg.message.Attachments.length : Int) ≤ index) := by
      omega
    unfold MIMEMessageMobile.GetAttachments
    rw [if_neg hguard]
    simp [List.getD_eq_getElem?_getD, h2]

/-- Witness for C10: a message with one header and one attachment; index 5
is rejected on both accessors and index 0 returns the stored element. -/
theorem mime_index_bounds_witness :
    sampleMIME.GetHeader 5 = Except.error "gopenpgp: invalid MIME header index" ∧
    sampleMIME.GetHeader 0 = Except.ok { Key := "Subject", Value := "hello" } ∧
    sampleMIME.GetAttachments 5
      = Except.error "gopenpgp: invalid MIME attachment index" ∧
    sampleMIME.GetAttachments 0 = Except.ok { id := 11 } := by
  refine ⟨?_, ?_, ?_, ?_⟩
  · exact (mime_index_bounds sampleMIME 5).1 (by norm_num [sampleMIME])
  · have h := (mime_index_bounds sampleMIME 0).2.1 "Subject" (by norm_num)
      (by simp [sampleMIME])
    simpa [sampleMIME] using h
  · exact (mime_index_bounds sampleMIME 5).2.2.1 (by norm_num [sampleMIME])
  · exact (mime_index_bounds sampleMIME 0).2.2.2 { id := 11 } (by norm_num)
      (by simp [sampleMIME])

end Gopenpgp.Helper
